import Mathlib

/-!
Shallow embedding of ipyvtk_simple/viewer.py (class ViewInteractiveWidget).

The widget is a single-threaded event-driven controller: browser DOM events
arrive at handle_interaction_event, which injects calls into the VTK
interactor, buffers the latest mouse move, tunes an adaptive quick-render
delay, and schedules throttled renders.

Modelling choices:
* Mutable object state becomes the record ViewerState, passed explicitly.
* Calls on the VTK interactor and the render scheduler are recorded in a
  trace (List Action) instead of performed.
* time.time() is passed in as an explicit rational `now`; within one event
  handler invocation the clock is treated as constant.
* Python floats are embedded as rationals; the constants 1.05, 1.5, 0.5,
  0.001, 2.0, 0.1, 0.01 become 21/20, 3/2, 1/2, 1/1000, 2, 1/10, 1/100.
* update_canvas (renderer render + pixel grab + JPEG encode + draw) is an
  external collaborator; its outcome is an oracle of type
  Except String Unit supplied per call (error carries str(e)).
* Missing dict keys raise KeyError; inside the handler try-block this is
  caught and stored on self.error, while in the coordinate-rescaling block
  (which sits before the try) it escapes the handler, which the embedding
  reflects by returning Except.error.
-/

namespace IpyVtk

/-- A DOM-style interaction event as received by handle_interaction_event.
An Option field models presence or absence of the corresponding dict key;
touch_event models the presence of the key touch_event (its value is never
read, only its presence). -/
structure Event where
  event : String
  offsetX : Option ℚ := none
  offsetY : Option ℚ := none
  button : Option Nat := none
  key : Option String := none
  timeStamp : Option ℚ := none
  touch_event : Bool := false
  boundingRectWidth : Option ℚ := none
  boundingRectHeight : Option ℚ := none
  deltaY : Option ℚ := none
  shiftKey : Option Bool := none
  ctrlKey : Option Bool := none
  altKey : Option Bool := none
  deriving DecidableEq

/-- Calls made on the VTK interactor (injections), interactor setter calls,
and render-scheduler markers.  fullRenderCall / quickRenderCall mark that
full_render() / quick_render() was invoked (before throttling);
canvasUpdated marks a completed update_canvas. -/
inductive Action where
  | setPos (x y : ℚ)
  | setKeySym (s : String)
  | setKeyCode (s : String)
  | setRepeat (n : Nat)
  | setShift (b : Bool)
  | setCtrl (b : Bool)
  | setAlt (b : Bool)
  | mouseMove
  | enter
  | leave
  | leftPress
  | middlePress
  | rightPress
  | leftRelease
  | middleRelease
  | rightRelease
  | keyPress
  | charEvent
  | keyRelease
  | wheelForward
  | wheelBackward
  | fullRenderCall
  | quickRenderCall
  | canvasUpdated
  deriving DecidableEq

/-- True for the actions that inject an interactor event (as opposed to
interactor attribute setters and render-scheduler markers). -/
def Action.isInjection : Action → Bool
  | .mouseMove | .enter | .leave
  | .leftPress | .middlePress | .rightPress
  | .leftRelease | .middleRelease | .rightRelease
  | .keyPress | .charEvent | .keyRelease
  | .wheelForward | .wheelBackward => true
  | _ => false

/-- True for interactor attribute setter calls. -/
def Action.isSetter : Action → Bool
  | .setPos _ _ | .setKeySym _ | .setKeyCode _ | .setRepeat _
  | .setShift _ | .setCtrl _ | .setAlt _ => true
  | _ => false

/-- Keep only interactor event injections of a trace. -/
def injectionsOf (t : List Action) : List Action :=
  t.filter Action.isInjection

/-- The mutable state of a ViewInteractiveWidget (viewer.py __init__,
lines 46-141), restricted to the fields the event/render logic reads or
writes.  last_full_render_call / last_quick_render_call are the
rate-limiter timestamps of the two throttled render entry points;
on_close_count counts invocations of the on_close cleanup callback and
widget_closed models the ipywidgets-level closed flag. -/
structure ViewerState where
  quality : ℚ
  touching : Bool
  last_render_time : ℚ
  quick_render_delay_sec : ℚ
  quick_render_delay_sec_range : ℚ × ℚ
  adaptive_render_delay : Bool
  last_mouse_move_event : Option Event
  track_mouse_move : Bool
  message_timestamp_offset : Option ℚ
  dragging : Bool
  error : Option String
  log_events : Bool
  logged_events : List Event
  elapsed_times : List ℚ
  age_of_processed_messages : List (ℚ × ℚ)
  width : ℚ
  height : ℚ
  wheel_watched : Bool
  last_full_render_call : Option ℚ
  last_quick_render_call : Option ℚ
  on_close_count : Nat
  widget_closed : Bool
  deriving DecidableEq

/-- The state right after __init__ (viewer.py lines 46-141): delay 0.001 s,
range [0.001, 2.0], adaptive on, not dragging, not touching, no pending
move, no clock offset, no error; wheel watching per allow_wheel. -/
def mkInitialState (quality : ℚ) (log_events wheel : Bool) (width height : ℚ) : ViewerState :=
  { quality := quality
  , touching := false
  , last_render_time := 0
  , quick_render_delay_sec := 1/1000
  , quick_render_delay_sec_range := (1/1000, 2)
  , adaptive_render_delay := true
  , last_mouse_move_event := none
  , track_mouse_move := false
  , message_timestamp_offset := none
  , dragging := false
  , error := none
  , log_events := log_events
  , logged_events := []
  , elapsed_times := []
  , age_of_processed_messages := []
  , width := width
  , height := height
  , wheel_watched := wheel
  , last_full_render_call := none
  , last_quick_render_call := none
  , on_close_count := 0
  , widget_closed := false }

/-- The __init__ entry (viewer.py lines 46-54): the quality check
`if quality < 0 or quality > 100: raise ValueError(...)` runs before the
first update_canvas (line 84), whose outcome is the firstRender oracle. -/
def viewerInit (quality : ℚ) (log_events wheel : Bool) (width height : ℚ)
    (firstRender : Except String Unit) : Except String ViewerState :=
  if quality < 0 ∨ quality > 100 then
    Except.error ("quality parameter must be between 0 and 100")
  else
    match firstRender with
    | Except.error m => Except.error m
    | Except.ok _ => Except.ok (mkInitialState quality log_events wheel width height)

/-- close (viewer.py lines 411-413): super().close() is the external
ipywidgets teardown (idempotent at the widget level, modelled by the
widget_closed flag); self._on_close() is then invoked unconditionally on
every call, so each close() increments the callback invocation count. -/
def close (st : ViewerState) : ViewerState :=
  { st with widget_closed := true, on_close_count := st.on_close_count + 1 }

/-- Python3 round() on an exact rational: round half to even. -/
def pythonRound (q : ℚ) : ℤ :=
  if q - Int.floor q < 1/2 then Int.floor q
  else if 1/2 < q - Int.floor q then Int.floor q + 1
  else if Int.floor q % 2 = 0 then Int.floor q else Int.floor q + 1

/-- set_quick_render_delay (viewer.py lines 208-213): clamp the requested
delay into quick_render_delay_sec_range and store it. -/
def set_quick_render_delay (delay_sec : ℚ) (st : ViewerState) : ViewerState :=
  let lo := st.quick_render_delay_sec_range.1
  let hi := st.quick_render_delay_sec_range.2
  let d := if delay_sec < lo then lo else if delay_sec > hi then hi else delay_sec
  { st with quick_render_delay_sec := d }

/-- The modifier-setter tail of update_interactor_event_data (viewer.py
lines 286-291): SetShiftKey / SetControlKey / SetAltKey for each modifier
key present on the event. -/
def modifierActions (e : Event) : List Action :=
  (match e.shiftKey with | some b => [Action.setShift b] | none => [])
  ++ (match e.ctrlKey with | some b => [Action.setCtrl b] | none => [])
  ++ (match e.altKey with | some b => [Action.setAlt b] | none => [])

/-- update_interactor_event_data (viewer.py lines 273-293).  For key events
it sets the key sym (translated through the KEY_TO_SYM table, modelled as
the parameter k2s because constants.py is not under src), the key code when
the key is a single character, and the repeat count; otherwise it sets the
event position (offsetX, height - offsetY).  Its internal try/except stores
a failure on self.error and skips the rest of the body without
propagating. -/
def update_interactor_event_data (k2s : String → Option String) (e : Event)
    (st : ViewerState) : ViewerState × List Action :=
  if e.event = "keydown" ∨ e.event = "keyup" then
    match e.key with
    | none => ({ st with error := some ("KeyError: key") }, [])
    | some k =>
      let sym := (k2s k).getD k
      let t := [Action.setKeySym sym]
        ++ (if k.length = 1 then [Action.setKeyCode k] else [])
        ++ [Action.setRepeat 1]
      (st, t ++ modifierActions e)
  else
    match e.offsetX, e.offsetY with
    | some x, some y => (st, [Action.setPos x (st.height - y)] ++ modifierActions e)
    | _, _ => ({ st with error := some ("KeyError: offset") }, [])

/-- send_pending_mouse_move_event (viewer.py lines 256-260): if a mouse
move is buffered, set its event data, inject MouseMoveEvent, and clear the
buffer. -/
def send_pending_mouse_move_event (k2s : String → Option String)
    (st : ViewerState) : ViewerState × List Action :=
  match st.last_mouse_move_event with
  | none => (st, [])
  | some m =>
    let p := update_interactor_event_data k2s m st
    ({ p.1 with last_mouse_move_event := none }, p.2 ++ [Action.mouseMove])

/-- Modelled from the spec: the throttle decorator from
src/ipyvtk_simple/throttler.py is not under src.  Spec section 4.5: both
render entry points are rate-limited by a last-call timestamp with
drop-if-too-soon semantics (not queue-and-delay); the wrapped body runs
only when at least the interval has elapsed since the last executed
call. -/
def throttleOpen (last : Option ℚ) (now interval : ℚ) : Bool :=
  match last with
  | none => true
  | some t => decide (interval ≤ now - t)

/-- The body of full_render (viewer.py lines 247-254): update_canvas(True)
then record last_render_time; any exception is caught and stored as
str(e) on self.error. -/
def fullRenderBody (r : Except String Unit) (now : ℚ) (st : ViewerState) :
    ViewerState × List Action :=
  match r with
  | Except.error msg => ({ st with error := some msg }, [])
  | Except.ok _ => ({ st with last_render_time := now }, [Action.canvasUpdated])

/-- full_render (viewer.py lines 245-254), including the @throttle(0.1)
wrapper (modelled from the spec, see throttleOpen). -/
def full_render (r : Except String Unit) (now : ℚ) (st : ViewerState) :
    ViewerState × List Action :=
  if throttleOpen st.last_full_render_call now (1/10) then
    let p := fullRenderBody r now { st with last_full_render_call := some now }
    (p.1, Action.fullRenderCall :: p.2)
  else (st, [Action.fullRenderCall])

/-- The body of quick_render (viewer.py lines 263-271):
send_pending_mouse_move_event, update_canvas, optionally log the elapsed
time, record last_render_time; any exception is caught and stored on
self.error (a failing update_canvas leaves last_render_time and
elapsed_times untouched, but the pending move was already flushed). -/
def quickRenderBody (k2s : String → Option String) (r : Except String Unit)
    (now : ℚ) (st : ViewerState) : ViewerState × List Action :=
  let p := send_pending_mouse_move_event k2s st
  match r with
  | Except.error msg => ({ p.1 with error := some msg }, p.2)
  | Except.ok _ =>
    let st1 := if p.1.log_events then
        { p.1 with elapsed_times := p.1.elapsed_times ++ [now - p.1.last_render_time] }
      else p.1
    ({ st1 with last_render_time := now }, p.2 ++ [Action.canvasUpdated])

/-- quick_render (viewer.py lines 262-271), including the @throttle(0.01)
wrapper (modelled from the spec, see throttleOpen). -/
def quick_render (k2s : String → Option String) (r : Except String Unit)
    (now : ℚ) (st : ViewerState) : ViewerState × List Action :=
  if throttleOpen st.last_quick_render_call now (1/100) then
    let p := quickRenderBody k2s r now { st with last_quick_render_call := some now }
    (p.1, Action.quickRenderCall :: p.2)
  else (st, [Action.quickRenderCall])

/-- The coordinate-rescaling block of handle_interaction_event (viewer.py
lines 301-308).  It runs only when both offsetX and boundingRectWidth are
present; it then rescales offsetX by width/boundingRectWidth and offsetY by
height/boundingRectHeight, rounding with Python round().  This block sits
before the try of the handler, so a missing offsetY/boundingRectHeight
(KeyError) or a zero rect size (ZeroDivisionError) escapes the handler,
modelled as Except.error. -/
def rescaleEvent (e : Event) (st : ViewerState) : Except String Event :=
  match e.offsetX, e.boundingRectWidth with
  | some x, some w =>
    if w = 0 then Except.error ("ZeroDivisionError") else
    let e1 := { e with offsetX := some ((pythonRound (x * (st.width / w)) : ℤ) : ℚ) }
    match e.offsetY, e.boundingRectHeight with
    | some y, some h =>
      if h = 0 then Except.error ("ZeroDivisionError") else
      Except.ok { e1 with offsetY := some ((pythonRound (y * (st.height / h)) : ℤ) : ℚ) }
    | none, _ => Except.error ("KeyError: offsetY")
    | some _, none => Except.error ("KeyError: boundingRectHeight")
  | _, _ => Except.ok e

/-- The quick-render cadence check at the end of the mousemove branch
(viewer.py lines 341-342): quick_render only when more than the current
quick-render delay has elapsed since the last render. -/
def renderCheck (k2s : String → Option String) (r : Except String Unit)
    (now : ℚ) (st : ViewerState) : ViewerState × List Action :=
  if now - st.last_render_time > st.quick_render_delay_sec then
    quick_render k2s r now st
  else (st, [])

/-- The tail of the mousemove branch after the clock-offset capture
(viewer.py lines 320-342): store the move as the pending move; return if
neither dragging nor tracking; otherwise run the adaptive delay controller
(when adaptive and not touching) and the cadence check.  The timeStamp
access in the controller raises KeyError when absent (caught by the outer
handler try, which stores it on self.error).  message_timestamp_offset is
necessarily set when the controller runs (captured on lines 315-318 when it
was absent), so getD 0 is never the fallback on a reachable path. -/
def handleMouseMoveTail (k2s : String → Option String) (e : Event) (now : ℚ)
    (r : Except String Unit) (st : ViewerState) : ViewerState × List Action :=
  let st := { st with last_mouse_move_event := some e }
  if !st.dragging && !st.track_mouse_move then (st, [])
  else if st.adaptive_render_delay && !st.touching then
    match e.timeStamp with
    | none => ({ st with error := some ("KeyError: timeStamp") }, [])
    | some ts =>
      let age := now - (ts * (1/1000) + st.message_timestamp_offset.getD 0)
      let st :=
        if age > 3/2 * st.quick_render_delay_sec then
          set_quick_render_delay (st.quick_render_delay_sec * (21/20)) st
        else if age < 1/2 * st.quick_render_delay_sec then
          set_quick_render_delay (st.quick_render_delay_sec / (21/20)) st
        else st
      let st :=
        if st.log_events then
          { st with age_of_processed_messages :=
              st.age_of_processed_messages ++ [(age, st.quick_render_delay_sec)] }
        else st
      renderCheck k2s r now st
  else renderCheck k2s r now st

/-- The mousemove branch (viewer.py lines 314-342).  Lines 315-318 capture
message_timestamp_offset on the first mousemove as
time.time() - timeStamp * 0.001; a missing timeStamp there raises KeyError
(caught by the outer try before the move is buffered). -/
def handleMouseMove (k2s : String → Option String) (e : Event) (now : ℚ)
    (r : Except String Unit) (st : ViewerState) : ViewerState × List Action :=
  match st.message_timestamp_offset, e.timeStamp with
  | none, none => ({ st with error := some ("KeyError: timeStamp") }, [])
  | none, some ts =>
    handleMouseMoveTail k2s e now r
      { st with message_timestamp_offset := some (now - ts * (1/1000)) }
  | some _, _ => handleMouseMoveTail k2s e now r st

/-- The mouseenter branch (viewer.py lines 343-346). -/
def handleMouseEnter (k2s : String → Option String) (e : Event)
    (st : ViewerState) : ViewerState × List Action :=
  let p := update_interactor_event_data k2s e st
  ({ p.1 with last_mouse_move_event := none }, p.2 ++ [Action.enter])

/-- The mouseleave branch (viewer.py lines 347-354): LeaveEvent, clear the
pending move, and when dragging inject LeftButtonReleaseEvent (always the
left button) and stop dragging; always full_render. -/
def handleMouseLeave (k2s : String → Option String) (e : Event) (now : ℚ)
    (r : Except String Unit) (st : ViewerState) : ViewerState × List Action :=
  let p := update_interactor_event_data k2s e st
  let st1 := { p.1 with last_mouse_move_event := none }
  let q := if st1.dragging then ({ st1 with dragging := false }, [Action.leftRelease])
    else (st1, [])
  let fr := full_render r now q.1
  (fr.1, p.2 ++ [Action.leave] ++ q.2 ++ fr.2)

/-- The mousedown branch (viewer.py lines 355-365): start dragging, flush
the pending move, set event data, inject the press for button 0/2/1, and
full_render.  A missing button key raises KeyError (caught by the outer
try) after the press-preceding effects already happened. -/
def handleMouseDown (k2s : String → Option String) (e : Event) (now : ℚ)
    (r : Except String Unit) (st : ViewerState) : ViewerState × List Action :=
  let st := { st with dragging := true }
  let p := send_pending_mouse_move_event k2s st
  let q := update_interactor_event_data k2s e p.1
  match e.button with
  | none => ({ q.1 with error := some ("KeyError: button") }, p.2 ++ q.2)
  | some b =>
    let t := if b = 0 then [Action.leftPress]
      else if b = 2 then [Action.rightPress]
      else if b = 1 then [Action.middlePress]
      else []
    let fr := full_render r now q.1
    (fr.1, p.2 ++ q.2 ++ t ++ fr.2)

/-- The mouseup branch (viewer.py lines 366-376): flush the pending move,
set event data, inject the release for button 0/2/1, stop dragging, and
full_render.  A missing button key raises KeyError before dragging is
cleared. -/
def handleMouseUp (k2s : String → Option String) (e : Event) (now : ℚ)
    (r : Except String Unit) (st : ViewerState) : ViewerState × List Action :=
  let p := send_pending_mouse_move_event k2s st
  let q := update_interactor_event_data k2s e p.1
  match e.button with
  | none => ({ q.1 with error := some ("KeyError: button") }, p.2 ++ q.2)
  | some b =>
    let t := if b = 0 then [Action.leftRelease]
      else if b = 2 then [Action.rightRelease]
      else if b = 1 then [Action.middleRelease]
      else []
    let st1 := { q.1 with dragging := false }
    let fr := full_render r now st1
    (fr.1, p.2 ++ q.2 ++ t ++ fr.2)

/-- The keydown / keyup branches (viewer.py lines 377-397): flush the
pending move, set event data, inject KeyPressEvent and CharEvent (keydown)
or KeyReleaseEvent (keyup), then full_render unless the key is exactly
Shift, Control, or Alt.  A missing key raises KeyError at the comparison
(caught by the outer try) after the injections already happened. -/
def handleKey (isDown : Bool) (k2s : String → Option String) (e : Event)
    (now : ℚ) (r : Except String Unit) (st : ViewerState) : ViewerState × List Action :=
  let p := send_pending_mouse_move_event k2s st
  let q := update_interactor_event_data k2s e p.1
  let inj := if isDown then [Action.keyPress, Action.charEvent] else [Action.keyRelease]
  match e.key with
  | none => ({ q.1 with error := some ("KeyError: key") }, p.2 ++ q.2 ++ inj)
  | some k =>
    if k ≠ "Shift" ∧ k ≠ "Control" ∧ k ≠ "Alt" then
      let fr := full_render r now q.1
      (fr.1, p.2 ++ q.2 ++ inj ++ fr.2)
    else (q.1, p.2 ++ q.2 ++ inj)

/-- The wheel branch (viewer.py lines 398-406): only when wheel is among
the watched events; flush the pending move, set event data, inject
MouseWheelForwardEvent for negative deltaY else MouseWheelBackwardEvent,
and full_render.  A missing deltaY raises KeyError (caught by the outer
try). -/
def handleWheel (k2s : String → Option String) (e : Event) (now : ℚ)
    (r : Except String Unit) (st : ViewerState) : ViewerState × List Action :=
  if st.wheel_watched then
    let p := send_pending_mouse_move_event k2s st
    let q := update_interactor_event_data k2s e p.1
    match e.deltaY with
    | none => ({ q.1 with error := some ("KeyError: deltaY") }, p.2 ++ q.2)
    | some d =>
      let t := if d < 0 then [Action.wheelForward] else [Action.wheelBackward]
      let fr := full_render r now q.1
      (fr.1, p.2 ++ q.2 ++ t ++ fr.2)
  else (st, [])

/-- The try-block of handle_interaction_event (viewer.py lines 310-409):
while touching, drop any event not tagged touch_event (line 311-312),
otherwise dispatch on the event name; unknown names do nothing. -/
def handleInner (k2s : String → Option String) (e : Event) (now : ℚ)
    (r : Except String Unit) (st : ViewerState) : ViewerState × List Action :=
  if st.touching && !e.touch_event then (st, [])
  else if e.event = "mousemove" then handleMouseMove k2s e now r st
  else if e.event = "mouseenter" then handleMouseEnter k2s e st
  else if e.event = "mouseleave" then handleMouseLeave k2s e now r st
  else if e.event = "mousedown" then handleMouseDown k2s e now r st
  else if e.event = "mouseup" then handleMouseUp k2s e now r st
  else if e.event = "keydown" then handleKey true k2s e now r st
  else if e.event = "keyup" then handleKey false k2s e now r st
  else if e.event = "wheel" then handleWheel k2s e now r st
  else (st, [])

/-- handle_interaction_event (viewer.py lines 295-409).  The source appends
the event dict to logged_events before rescaling mutates that same dict in
place, so the logged entry aliases the rescaled event; the model therefore
rescales first and logs the rescaled event.  A rescaling failure (which in
the source occurs before the try and escapes the handler) is returned as
Except.error. -/
def handle_interaction_event (k2s : String → Option String) (e : Event)
    (now : ℚ) (r : Except String Unit) (st : ViewerState) :
    Except String (ViewerState × List Action) :=
  match rescaleEvent e st with
  | Except.error m => Except.error m
  | Except.ok e1 =>
    let st := if st.log_events then { st with logged_events := st.logged_events ++ [e1] } else st
    Except.ok (handleInner k2s e1 now r st)

/-- The post-handler state, with a default for the escaped-exception case
(in the source an escaping exception leaves the widget state as it was at
the raise point). -/
def stateAfter (r : Except String (ViewerState × List Action)) (dflt : ViewerState) :
    ViewerState :=
  match r with
  | Except.ok p => p.1
  | Except.error _ => dflt

/-- The trace of a handler outcome ([] when the handler escaped before the
dispatch). -/
def traceOf (r : Except String (ViewerState × List Action)) : List Action :=
  match r with
  | Except.ok p => p.2
  | Except.error _ => []

/-- Run a sequence of interaction events, each with its own wall-clock time
and update_canvas oracle; an escaped rescaling exception leaves the state
unchanged and the session continues with the next event. -/
def runEvents (k2s : String → Option String)
    (inputs : List (Event × ℚ × Except String Unit)) (st : ViewerState) : ViewerState :=
  match inputs with
  | [] => st
  | i :: rest =>
    runEvents k2s rest (stateAfter (handle_interaction_event k2s i.1 i.2.1 i.2.2 st) st)

/-! ### Concrete instances used by claim counterexamples and witnesses -/

/-- The quick-render delay invariant: the range is the configured
[0.001, 2.0] and the current delay lies inside it. -/
def DelayInv (st : ViewerState) : Prop :=
  st.quick_render_delay_sec_range = (1/1000, 2) ∧
  1/1000 ≤ st.quick_render_delay_sec ∧ st.quick_render_delay_sec ≤ 2

/-- A key-to-sym table that maps nothing (concrete instance for closed
evaluation of handler runs). -/
def k2sEmpty : String → Option String := fun _ => none

/-- A concrete session state at the delay ceiling: delay 2.0 s (the top of
the clamping range), adaptive on, dragging, clock offset already captured
as 0. -/
def c1CexState : ViewerState :=
  { mkInitialState 80 false true 200 200 with
      quick_render_delay_sec := 2, dragging := true,
      message_timestamp_offset := some 0, last_render_time := 10 }

/-- A pointermove with source timestamp 0, processed at local time 10:
staleness 10 > 1.5 times the current delay 2. -/
def c1CexEvent : Event := { event := "mousemove", timeStamp := some 0 }

/-- A touching session state and a non-touch pointerdown for the C5
witness. -/
def c5State : ViewerState :=
  { mkInitialState 80 true true 200 200 with touching := true }

/-- A non-touch mousedown event (left button at (5, 7)). -/
def c5Event : Event :=
  { event := "mousedown", offsetX := some 5, offsetY := some 7, button := some 0 }

/-- A fresh non-touching session for the C6 witness. -/
def c6State : ViewerState := mkInitialState 80 false true 200 200

/-- A keydown for the letter a. -/
def c6Event : Event := { event := "keydown", key := some "a" }

/-- A dragging non-touching session for the C10 witness. -/
def c10State : ViewerState :=
  { mkInitialState 80 false true 200 200 with dragging := true }

/-- A mouseleave at (1, 1). -/
def c10Event : Event := { event := "mouseleave", offsetX := some 1, offsetY := some 1 }

/-- A fresh session whose render throttles have both just fired at time 0,
so that further render calls at time 0 are rate-limit-suppressed. -/
def c3Start : ViewerState :=
  { mkInitialState 80 false true 200 200 with
      last_full_render_call := some 0, last_quick_render_call := some 0 }

/-- Left-button pointerdown at (x, y), source timestamp 0. -/
def c3Down (x y : ℚ) : Event :=
  { event := "mousedown", offsetX := some x, offsetY := some y, button := some 0,
    timeStamp := some 0 }

/-- Pointermove to (x, y), source timestamp 0. -/
def c3Move (x y : ℚ) : Event :=
  { event := "mousemove", offsetX := some x, offsetY := some y, timeStamp := some 0 }

/-- Left-button pointerup at (x, y), source timestamp 0. -/
def c3Up (x y : ℚ) : Event :=
  { event := "mouseup", offsetX := some x, offsetY := some y, button := some 0,
    timeStamp := some 0 }

/-- One handler step of the C3 scenario: processed at local time 0 with a
succeeding canvas oracle. -/
def c3Step (e : Event) (st : ViewerState) : ViewerState :=
  stateAfter (handle_interaction_event k2sEmpty e 0 (Except.ok ()) st) st

/-- The trace of one handler step of the C3 scenario. -/
def c3Trace (e : Event) (st : ViewerState) : List Action :=
  traceOf (handle_interaction_event k2sEmpty e 0 (Except.ok ()) st)

/-- State after the pointerdown. -/
def c3s1 (x1 y1 : ℚ) : ViewerState := c3Step (c3Down x1 y1) c3Start

/-- State after the first pointermove. -/
def c3s2 (x1 y1 : ℚ) : ViewerState := c3Step (c3Move x1 y1) (c3s1 x1 y1)

/-- State after the second pointermove. -/
def c3s3 (x1 y1 x2 y2 : ℚ) : ViewerState := c3Step (c3Move x2 y2) (c3s2 x1 y1)

/-! ### Field-preservation lemmas

update_interactor_event_data writes only error; send_pending_mouse_move_event
writes only error and the pending move; the render entry points write only
error, timing fields and logs.  None of them touches the quick-render delay,
its range, the clock offset, or the drag flag. -/

@[simp] theorem upd_fst_delay (k2s : String → Option String) (e : Event) (st : ViewerState) :
    (update_interactor_event_data k2s e st).1.quick_render_delay_sec = st.quick_render_delay_sec := by
  unfold update_interactor_event_data
  repeat' split
  all_goals rfl

@[simp] theorem upd_fst_range (k2s : String → Option String) (e : Event) (st : ViewerState) :
    (update_interactor_event_data k2s e st).1.quick_render_delay_sec_range = st.quick_render_delay_sec_range := by
  unfold update_interactor_event_data
  repeat' split
  all_goals rfl

@[simp] theorem upd_fst_offset (k2s : String → Option String) (e : Event) (st : ViewerState) :
    (update_interactor_event_data k2s e st).1.message_timestamp_offset = st.message_timestamp_offset := by
  unfold update_interactor_event_data
  repeat' split
  all_goals rfl

@[simp] theorem upd_fst_dragging (k2s : String → Option String) (e : Event) (st : ViewerState) :
    (update_interactor_event_data k2s e st).1.dragging = st.dragging := by
  unfold update_interactor_event_data
  repeat' split
  all_goals rfl

@[simp] theorem send_pending_fst_delay (k2s : String → Option String) (st : ViewerState) :
    (send_pending_mouse_move_event k2s st).1.quick_render_delay_sec = st.quick_render_delay_sec := by
  unfold send_pending_mouse_move_event
  repeat' split
  all_goals simp

@[simp] theorem send_pending_fst_range (k2s : String → Option String) (st : ViewerState) :
    (send_pending_mouse_move_event k2s st).1.quick_render_delay_sec_range = st.quick_render_delay_sec_range := by
  unfold send_pending_mouse_move_event
  repeat' split
  all_goals simp

@[simp] theorem send_pending_fst_offset (k2s : String → Option String) (st : ViewerState) :
    (send_pending_mouse_move_event k2s st).1.message_timestamp_offset = st.message_timestamp_offset := by
  unfold send_pending_mouse_move_event
  repeat' split
  all_goals simp

@[simp] theorem full_render_fst_delay (r : Except String Unit) (now : ℚ) (st : ViewerState) :
    (full_render r now st).1.quick_render_delay_sec = st.quick_render_delay_sec := by
  unfold full_render fullRenderBody
  repeat' split
  all_goals rfl

@[simp] theorem full_render_fst_range (r : Except String Unit) (now : ℚ) (st : ViewerState) :
    (full_render r now st).1.quick_render_delay_sec_range = st.quick_render_delay_sec_range := by
  unfold full_render fullRenderBody
  repeat' split
  all_goals rfl

@[simp] theorem full_render_fst_offset (r : Except String Unit) (now : ℚ) (st : ViewerState) :
    (full_render r now st).1.message_timestamp_offset = st.message_timestamp_offset := by
  unfold full_render fullRenderBody
  repeat' split
  all_goals rfl

@[simp] theorem full_render_fst_dragging (r : Except String Unit) (now : ℚ) (st : ViewerState) :
    (full_render r now st).1.dragging = st.dragging := by
  unfold full_render fullRenderBody
  repeat' split
  all_goals rfl

@[simp] theorem full_render_fst_pending (r : Except String Unit) (now : ℚ) (st : ViewerState) :
    (full_render r now st).1.last_mouse_move_event = st.last_mouse_move_event := by
  unfold full_render fullRenderBody
  repeat' split
  all_goals rfl

@[simp] theorem quick_render_fst_delay (k2s : String → Option String) (r : Except String Unit)
    (now : ℚ) (st : ViewerState) :
    (quick_render k2s r now st).1.quick_render_delay_sec = st.quick_render_delay_sec := by
  unfold quick_render quickRenderBody
  repeat' split
  all_goals simp
  all_goals try (split <;> simp)

@[simp] theorem quick_render_fst_range (k2s : String → Option String) (r : Except String Unit)
    (now : ℚ) (st : ViewerState) :
    (quick_render k2s r now st).1.quick_render_delay_sec_range = st.quick_render_delay_sec_range := by
  unfold quick_render quickRenderBody
  repeat' split
  all_goals simp
  all_goals try (split <;> simp)

@[simp] theorem quick_render_fst_offset (k2s : String → Option String) (r : Except String Unit)
    (now : ℚ) (st : ViewerState) :
    (quick_render k2s r now st).1.message_timestamp_offset = st.message_timestamp_offset := by
  unfold quick_render quickRenderBody
  repeat' split
  all_goals simp
  all_goals try (split <;> simp)

@[simp] theorem renderCheck_fst_delay (k2s : String → Option String) (r : Except String Unit)
    (now : ℚ) (st : ViewerState) :
    (renderCheck k2s r now st).1.quick_render_delay_sec = st.quick_render_delay_sec := by
  unfold renderCheck
  split
  · simp
  · rfl

@[simp] theorem renderCheck_fst_range (k2s : String → Option String) (r : Except String Unit)
    (now : ℚ) (st : ViewerState) :
    (renderCheck k2s r now st).1.quick_render_delay_sec_range = st.quick_render_delay_sec_range := by
  unfold renderCheck
  split
  · simp
  · rfl

@[simp] theorem renderCheck_fst_offset (k2s : String → Option String) (r : Except String Unit)
    (now : ℚ) (st : ViewerState) :
    (renderCheck k2s r now st).1.message_timestamp_offset = st.message_timestamp_offset := by
  unfold renderCheck
  split
  · simp
  · rfl

/-! ### The delay invariant (claim C2 infrastructure) -/

theorem delayInv_of_fields {st st' : ViewerState} (h : DelayInv st)
    (h1 : st'.quick_render_delay_sec = st.quick_render_delay_sec)
    (h2 : st'.quick_render_delay_sec_range = st.quick_render_delay_sec_range) :
    DelayInv st' := by
  obtain ⟨hr, ha, hb⟩ := h
  exact ⟨by rw [h2, hr], by rw [h1]; exact ha, by rw [h1]; exact hb⟩

theorem set_quick_render_delay_val (d : ℚ) (st : ViewerState) :
    (set_quick_render_delay d st).quick_render_delay_sec =
      if d < st.quick_render_delay_sec_range.1 then st.quick_render_delay_sec_range.1
      else if d > st.quick_render_delay_sec_range.2 then st.quick_render_delay_sec_range.2
      else d := rfl

theorem set_quick_render_delay_range (d : ℚ) (st : ViewerState) :
    (set_quick_render_delay d st).quick_render_delay_sec_range =
      st.quick_render_delay_sec_range := rfl

/-- Clamping keeps any requested delay inside the configured range. -/
theorem set_quick_render_delay_delayInv (d : ℚ) {st : ViewerState} (h : DelayInv st) :
    DelayInv (set_quick_render_delay d st) := by
  obtain ⟨hr, h1, h2⟩ := h
  refine ⟨by rw [set_quick_render_delay_range, hr], ?_, ?_⟩ <;>
    rw [set_quick_render_delay_val, hr] <;>
    split_ifs with ha hb <;>
    norm_num at * <;>
    try linarith

theorem delayInv_renderCheck (k2s : String → Option String) (r : Except String Unit)
    (now : ℚ) {st : ViewerState} (h : DelayInv st) :
    DelayInv ((renderCheck k2s r now st).1) :=
  delayInv_of_fields h (renderCheck_fst_delay k2s r now st) (renderCheck_fst_range k2s r now st)

theorem delayInv_handleMouseMoveTail (k2s : String → Option String) (e : Event) (now : ℚ)
    (r : Except String Unit) {st : ViewerState} (h : DelayInv st) :
    DelayInv ((handleMouseMoveTail k2s e now r st).1) := by
  unfold handleMouseMoveTail
  simp only []
  repeat' split
  all_goals
    first
    | exact delayInv_of_fields h rfl rfl
    | exact delayInv_renderCheck _ _ _ (delayInv_of_fields h rfl rfl)
    | exact delayInv_renderCheck _ _ _
        (set_quick_render_delay_delayInv _ (delayInv_of_fields h rfl rfl))
    | exact delayInv_renderCheck _ _ _
        (delayInv_of_fields
          (set_quick_render_delay_delayInv _ (delayInv_of_fields h rfl rfl)) rfl rfl)

theorem delayInv_handleMouseMove (k2s : String → Option String) (e : Event) (now : ℚ)
    (r : Except String Unit) {st : ViewerState} (h : DelayInv st) :
    DelayInv ((handleMouseMove k2s e now r st).1) := by
  unfold handleMouseMove
  repeat' split
  all_goals
    first
    | exact delayInv_of_fields h rfl rfl
    | exact delayInv_handleMouseMoveTail k2s e now r (delayInv_of_fields h rfl rfl)

theorem handleMouseEnter_fst_delay (k2s : String → Option String) (e : Event)
    (st : ViewerState) :
    (handleMouseEnter k2s e st).1.quick_render_delay_sec = st.quick_render_delay_sec := by
  unfold handleMouseEnter
  simp only []
  simp

theorem handleMouseEnter_fst_range (k2s : String → Option String) (e : Event)
    (st : ViewerState) :
    (handleMouseEnter k2s e st).1.quick_render_delay_sec_range = st.quick_render_delay_sec_range := by
  unfold handleMouseEnter
  simp only []
  simp

theorem handleMouseLeave_fst_delay (k2s : String → Option String) (e : Event) (now : ℚ)
    (r : Except String Unit) (st : ViewerState) :
    (handleMouseLeave k2s e now r st).1.quick_render_delay_sec = st.quick_render_delay_sec := by
  unfold handleMouseLeave
  simp only []
  repeat' split
  all_goals simp

theorem handleMouseLeave_fst_range (k2s : String → Option String) (e : Event) (now : ℚ)
    (r : Except String Unit) (st : ViewerState) :
    (handleMouseLeave k2s e now r st).1.quick_render_delay_sec_range = st.quick_render_delay_sec_range := by
  unfold handleMouseLeave
  simp only []
  repeat' split
  all_goals simp

theorem handleMouseDown_fst_delay (k2s : String → Option String) (e : Event) (now : ℚ)
    (r : Except String Unit) (st : ViewerState) :
    (handleMouseDown k2s e now r st).1.quick_render_delay_sec = st.quick_render_delay_sec := by
  unfold handleMouseDown
  simp only []
  repeat' split
  all_goals simp

theorem handleMouseDown_fst_range (k2s : String → Option String) (e : Event) (now : ℚ)
    (r : Except String Unit) (st : ViewerState) :
    (handleMouseDown k2s e now r st).1.quick_render_delay_sec_range = st.quick_render_delay_sec_range := by
  unfold handleMouseDown
  simp only []
  repeat' split
  all_goals simp

theorem handleMouseUp_fst_delay (k2s : String → Option String) (e : Event) (now : ℚ)
    (r : Except String Unit) (st : ViewerState) :
    (handleMouseUp k2s e now r st).1.quick_render_delay_sec = st.quick_render_delay_sec := by
  unfold handleMouseUp
  simp only []
  repeat' split
  all_goals simp

theorem handleMouseUp_fst_range (k2s : String → Option String) (e : Event) (now : ℚ)
    (r : Except String Unit) (st : ViewerState) :
    (handleMouseUp k2s e now r st).1.quick_render_delay_sec_range = st.quick_render_delay_sec_range := by
  unfold handleMouseUp
  simp only []
  repeat' split
  all_goals simp

theorem handleKey_fst_delay (isDown : Bool) (k2s : String → Option String) (e : Event)
    (now : ℚ) (r : Except String Unit) (st : ViewerState) :
    (handleKey isDown k2s e now r st).1.quick_render_delay_sec = st.quick_render_delay_sec := by
  unfold handleKey
  simp only []
  repeat' split
  all_goals simp

theorem handleKey_fst_range (isDown : Bool) (k2s : String → Option String) (e : Event)
    (now : ℚ) (r : Except String Unit) (st : ViewerState) :
    (handleKey isDown k2s e now r st).1.quick_render_delay_sec_range = st.quick_render_delay_sec_range := by
  unfold handleKey
  simp only []
  repeat' split
  all_goals simp

theorem handleWheel_fst_delay (k2s : String → Option String) (e : Event) (now : ℚ)
    (r : Except String Unit) (st : ViewerState) :
    (handleWheel k2s e now r st).1.quick_render_delay_sec = st.quick_render_delay_sec := by
  unfold handleWheel
  simp only []
  repeat' split
  all_goals simp

theorem handleWheel_fst_range (k2s : String → Option String) (e : Event) (now : ℚ)
    (r : Except String Unit) (st : ViewerState) :
    (handleWheel k2s e now r st).1.quick_render_delay_sec_range = st.quick_render_delay_sec_range := by
  unfold handleWheel
  simp only []
  repeat' split
  all_goals simp

theorem delayInv_handleInner (k2s : String → Option String) (e : Event) (now : ℚ)
    (r : Except String Unit) {st : ViewerState} (h : DelayInv st) :
    DelayInv ((handleInner k2s e now r st).1) := by
  unfold handleInner
  repeat' split
  all_goals
    first
    | exact delayInv_of_fields h rfl rfl
    | exact delayInv_handleMouseMove k2s e now r h
    | exact delayInv_of_fields h (handleMouseEnter_fst_delay k2s e st)
        (handleMouseEnter_fst_range k2s e st)
    | exact delayInv_of_fields h (handleMouseLeave_fst_delay k2s e now r st)
        (handleMouseLeave_fst_range k2s e now r st)
    | exact delayInv_of_fields h (handleMouseDown_fst_delay k2s e now r st)
        (handleMouseDown_fst_range k2s e now r st)
    | exact delayInv_of_fields h (handleMouseUp_fst_delay k2s e now r st)
        (handleMouseUp_fst_range k2s e now r st)
    | exact delayInv_of_fields h (handleKey_fst_delay true k2s e now r st)
        (handleKey_fst_range true k2s e now r st)
    | exact delayInv_of_fields h (handleKey_fst_delay false k2s e now r st)
        (handleKey_fst_range false k2s e now r st)
    | exact delayInv_of_fields h (handleWheel_fst_delay k2s e now r st)
        (handleWheel_fst_range k2s e now r st)

theorem delayInv_handle (k2s : String → Option String) (e : Event) (now : ℚ)
    (r : Except String Unit) {st : ViewerState} (h : DelayInv st) :
    DelayInv (stateAfter (handle_interaction_event k2s e now r st) st) := by
  unfold handle_interaction_event
  rcases hres : rescaleEvent e st with m | e1 <;> simp only [hres, stateAfter]
  · exact h
  · split <;> exact delayInv_handleInner k2s e1 now r (delayInv_of_fields h rfl rfl)

theorem delayInv_runEvents (k2s : String → Option String)
    (inputs : List (Event × ℚ × Except String Unit)) :
    ∀ st : ViewerState, DelayInv st → DelayInv (runEvents k2s inputs st) := by
  induction inputs with
  | nil => intro st h; exact h
  | cons i rest ih =>
    intro st h
    exact ih _ (delayInv_handle k2s i.1 i.2.1 i.2.2 h)

/-- C2: the quick-render delay is a session invariant: it starts at 0.001 s,
inside [0.001, 2.0], and after any sequence of interaction events — with
arbitrary wall-clock times, timestamps and render outcomes, hence arbitrary
staleness values driving arbitrarily many adaptive multiplications or
divisions by 1.05 — it remains within [0.001, 2.0]. -/
theorem claim2_delay_range_invariant (k2s : String → Option String) (quality : ℚ)
    (log_events wheel : Bool) (width height : ℚ)
    (inputs : List (Event × ℚ × Except String Unit)) :
    (1/1000 ≤ (mkInitialState quality log_events wheel width height).quick_render_delay_sec ∧
      (mkInitialState quality log_events wheel width height).quick_render_delay_sec ≤ 2) ∧
    (1/1000 ≤ (runEvents k2s inputs (mkInitialState quality log_events wheel width height)).quick_render_delay_sec ∧
      (runEvents k2s inputs (mkInitialState quality log_events wheel width height)).quick_render_delay_sec ≤ 2) := by
  have h0 : DelayInv (mkInitialState quality log_events wheel width height) :=
    ⟨rfl, by norm_num [mkInitialState], by norm_num [mkInitialState]⟩
  have h1 := delayInv_runEvents k2s inputs _ h0
  exact ⟨⟨h0.2.1, h0.2.2⟩, ⟨h1.2.1, h1.2.2⟩⟩

/-! ### Clock-offset preservation (claim C1 infrastructure) -/

@[simp] theorem set_quick_render_delay_offset (d : ℚ) (st : ViewerState) :
    (set_quick_render_delay d st).message_timestamp_offset = st.message_timestamp_offset := rfl

@[simp] theorem handleMouseMoveTail_fst_offset (k2s : String → Option String) (e : Event)
    (now : ℚ) (r : Except String Unit) (st : ViewerState) :
    (handleMouseMoveTail k2s e now r st).1.message_timestamp_offset = st.message_timestamp_offset := by
  unfold handleMouseMoveTail
  simp only []
  repeat' split
  all_goals simp

theorem handleMouseMove_offset_some (k2s : String → Option String) (e : Event) (now : ℚ)
    (r : Except String Unit) (st : ViewerState) (off : ℚ)
    (h : st.message_timestamp_offset = some off) :
    (handleMouseMove k2s e now r st).1.message_timestamp_offset = some off := by
  unfold handleMouseMove
  simp only [h]
  simp [h]

theorem handleMouseEnter_fst_offset (k2s : String → Option String) (e : Event)
    (st : ViewerState) :
    (handleMouseEnter k2s e st).1.message_timestamp_offset = st.message_timestamp_offset := by
  unfold handleMouseEnter
  simp only []
  simp

theorem handleMouseLeave_fst_offset (k2s : String → Option String) (e : Event) (now : ℚ)
    (r : Except String Unit) (st : ViewerState) :
    (handleMouseLeave k2s e now r st).1.message_timestamp_offset = st.message_timestamp_offset := by
  unfold handleMouseLeave
  simp only []
  repeat' split
  all_goals simp

theorem handleMouseDown_fst_offset (k2s : String → Option String) (e : Event) (now : ℚ)
    (r : Except String Unit) (st : ViewerState) :
    (handleMouseDown k2s e now r st).1.message_timestamp_offset = st.message_timestamp_offset := by
  unfold handleMouseDown
  simp only []
  repeat' split
  all_goals simp

theorem handleMouseUp_fst_offset (k2s : String → Option String) (e : Event) (now : ℚ)
    (r : Except String Unit) (st : ViewerState) :
    (handleMouseUp k2s e now r st).1.message_timestamp_offset = st.message_timestamp_offset := by
  unfold handleMouseUp
  simp only []
  repeat' split
  all_goals simp

theorem handleKey_fst_offset (isDown : Bool) (k2s : String → Option String) (e : Event)
    (now : ℚ) (r : Except String Unit) (st : ViewerState) :
    (handleKey isDown k2s e now r st).1.message_timestamp_offset = st.message_timestamp_offset := by
  unfold handleKey
  simp only []
  repeat' split
  all_goals simp

theorem handleWheel_fst_offset (k2s : String → Option String) (e : Event) (now : ℚ)
    (r : Except String Unit) (st : ViewerState) :
    (handleWheel k2s e now r st).1.message_timestamp_offset = st.message_timestamp_offset := by
  unfold handleWheel
  simp only []
  repeat' split
  all_goals simp

theorem handleInner_offset_some (k2s : String → Option String) (e : Event) (now : ℚ)
    (r : Except String Unit) (st : ViewerState) (off : ℚ)
    (h : st.message_timestamp_offset = some off) :
    (handleInner k2s e now r st).1.message_timestamp_offset = some off := by
  unfold handleInner
  repeat' split
  all_goals
    first
    | exact h
    | rw [handleMouseMove_offset_some k2s _ now r _ off h]
    | rw [handleMouseEnter_fst_offset]; exact h
    | rw [handleMouseLeave_fst_offset]; exact h
    | rw [handleMouseDown_fst_offset]; exact h
    | rw [handleMouseUp_fst_offset]; exact h
    | rw [handleKey_fst_offset]; exact h
    | rw [handleWheel_fst_offset]; exact h

/-- The fields of an event that survive a successful rescaling unchanged:
everything except the offsets. -/
theorem rescaleEvent_ok_fields (e : Event) (st : ViewerState) (e1 : Event)
    (h : rescaleEvent e st = Except.ok e1) :
    e1.event = e.event ∧ e1.key = e.key ∧ e1.timeStamp = e.timeStamp ∧
    e1.touch_event = e.touch_event ∧ e1.button = e.button ∧ e1.deltaY = e.deltaY := by
  unfold rescaleEvent at h
  repeat' split at h
  all_goals cases h
  all_goals exact ⟨rfl, rfl, rfl, rfl, rfl, rfl⟩

/-! ### Claims C4, C7, C8, C9 -/

/-- C4 counterexample: calling close() twice on a freshly constructed
session does not invoke the cleanup callback exactly once — the second
close() calls it again (viewer.py line 413 runs self._on_close()
unconditionally), so the invocation count after two close() calls is 2. -/
theorem claim4_counterexample :
    ¬ (close (close (mkInitialState 80 true true 200 200))).on_close_count = 1 := by
  decide

/-- C4 amended: close() is not idempotent with respect to the cleanup
callback: every close() call invokes the callback once more, so calling
close() twice invokes it exactly twice. -/
theorem claim4_close_twice_runs_callback_twice (st : ViewerState) :
    (close st).on_close_count = st.on_close_count + 1 ∧
    (close (close st)).on_close_count = st.on_close_count + 2 :=
  ⟨rfl, rfl⟩

/-- C7: when an event carries both offsetX and boundingRectWidth (and the
offsetY / boundingRectHeight it is then required to carry, both rect sizes
nonzero), its offsets are rescaled by canvas size over bounding-rect size
and rounded to integer pixels; an event without boundingRectWidth is
returned unchanged, skipping rescaling entirely. -/
theorem claim7_offset_rescaling (e : Event) (st : ViewerState) (x y w h : ℚ)
    (hx : e.offsetX = some x) (hy : e.offsetY = some y)
    (hw : e.boundingRectWidth = some w) (hh : e.boundingRectHeight = some h)
    (hw0 : ¬ w = 0) (hh0 : ¬ h = 0) :
    rescaleEvent e st = Except.ok { e with
      offsetX := some ((pythonRound (x * (st.width / w)) : ℤ) : ℚ),
      offsetY := some ((pythonRound (y * (st.height / h)) : ℤ) : ℚ) } ∧
    ∀ e2 : Event, e2.boundingRectWidth = none → rescaleEvent e2 st = Except.ok e2 := by
  constructor
  · unfold rescaleEvent
    simp only [hx, hy, hw, hh, if_neg hw0, if_neg hh0]
  · intro e2 hb
    unfold rescaleEvent
    rcases hx2 : e2.offsetX with _ | x2 <;> simp only [hx2, hb]

/-- C7 witness: the spec instance — offsetX=50 with boundingRectWidth=100
on a canvas of width 200 (square canvas and rect here) normalizes to
offsetX=100. -/
theorem claim7_offset_rescaling_witness :
    ({ event := "mousemove", offsetX := some 50, offsetY := some 50,
       boundingRectWidth := some 100, boundingRectHeight := some 100 } : Event).offsetX = some 50 ∧
    (mkInitialState 80 true true 200 200).width = 200 ∧
    rescaleEvent
      { event := "mousemove", offsetX := some 50, offsetY := some 50,
        boundingRectWidth := some 100, boundingRectHeight := some 100 }
      (mkInitialState 80 true true 200 200) =
      Except.ok
        { event := "mousemove", offsetX := some 100, offsetY := some 100,
          boundingRectWidth := some 100, boundingRectHeight := some 100 } := by
  refine ⟨rfl, rfl, ?_⟩
  have h := (claim7_offset_rescaling
    { event := "mousemove", offsetX := some 50, offsetY := some 50,
      boundingRectWidth := some 100, boundingRectHeight := some 100 }
    (mkInitialState 80 true true 200 200) 50 50 100 100
    rfl rfl rfl rfl (by norm_num) (by norm_num)).1
  rw [h]
  norm_num [pythonRound, mkInitialState]

/-- C8: construction succeeds for every quality in [0,100], boundaries
included; for quality < 0 or > 100 it fails with the invalid-configuration
error, for every outcome of the first render/encode — i.e. eagerly, before
any encode is attempted. -/
theorem claim8_quality_validation (quality : ℚ) (log_events wheel : Bool)
    (width height : ℚ) :
    ((0 ≤ quality ∧ quality ≤ 100) →
      viewerInit quality log_events wheel width height (Except.ok ()) =
        Except.ok (mkInitialState quality log_events wheel width height)) ∧
    ((quality < 0 ∨ quality > 100) →
      ∀ firstRender : Except String Unit,
        viewerInit quality log_events wheel width height firstRender =
          Except.error ("quality parameter must be between 0 and 100")) := by
  constructor
  · rintro ⟨h1, h2⟩
    unfold viewerInit
    rw [if_neg]
    rintro (hlt | hgt) <;> linarith
  · intro hq firstRender
    unfold viewerInit
    rw [if_pos hq]

/-- C8 witness: quality 0, 80 and 100 construct successfully; quality -1
and 101 are rejected even when the first render would fail with its own
error. -/
theorem claim8_quality_validation_witness :
    viewerInit 0 true true 200 200 (Except.ok ()) =
      Except.ok (mkInitialState 0 true true 200 200) ∧
    viewerInit 100 true true 200 200 (Except.ok ()) =
      Except.ok (mkInitialState 100 true true 200 200) ∧
    viewerInit (-1) true true 200 200 (Except.error ("render failed")) =
      Except.error ("quality parameter must be between 0 and 100") ∧
    viewerInit 101 true true 200 200 (Except.ok ()) =
      Except.error ("quality parameter must be between 0 and 100") :=
  ⟨(claim8_quality_validation 0 true true 200 200).1 (by norm_num),
   (claim8_quality_validation 100 true true 200 200).1 (by norm_num),
   (claim8_quality_validation (-1) true true 200 200).2 (by norm_num) _,
   (claim8_quality_validation 101 true true 200 200).2 (by norm_num) _⟩

/-- C9: a failure inside the full-render or quick-render body (renderer,
frame source or encoder, abstracted as the update_canvas oracle) is caught:
its message is stored on the error field and the body returns normally;
moreover whether handle_interaction_event completes never depends on the
render outcome, so a render failure never escapes the handler and the
session keeps processing events. -/
theorem claim9_render_failures_swallowed (k2s : String → Option String)
    (msg : String) (now : ℚ) (st : ViewerState) (e : Event) :
    fullRenderBody (Except.error msg) now st = ({ st with error := some msg }, []) ∧
    quickRenderBody k2s (Except.error msg) now st =
      ({ (send_pending_mouse_move_event k2s st).1 with error := some msg },
        (send_pending_mouse_move_event k2s st).2) ∧
    (handle_interaction_event k2s e now (Except.error msg) st).isOk =
      (handle_interaction_event k2s e now (Except.ok ()) st).isOk := by
  refine ⟨rfl, rfl, ?_⟩
  unfold handle_interaction_event
  rcases hres : rescaleEvent e st with m | e1 <;> (simp only [hres]; try rfl)

/-! ### Claim C1 -/

/-- C1 counterexample: at the delay ceiling the update is not a plain
multiplication by 1.05.  With delay 2.0 and staleness 10 > 1.5 times 2.0 the
claim says the stored delay becomes 2.0 times 1.05 = 2.1, but the code
clamps it back to 2.0 (set_quick_render_delay, viewer.py lines 208-213). -/
theorem claim1_counterexample :
    ¬ ((stateAfter (handle_interaction_event k2sEmpty c1CexEvent 10 (Except.ok ()) c1CexState)
        c1CexState).quick_render_delay_sec
      = c1CexState.quick_render_delay_sec * (21/20)) := by
  norm_num [handle_interaction_event, rescaleEvent, handleInner, handleMouseMove,
    handleMouseMoveTail, renderCheck, set_quick_render_delay, stateAfter,
    mkInitialState, k2sEmpty, c1CexState, c1CexEvent]

/-- C1 amended: for every pointermove processed while adaptive delay is on
and not touching, the clock offset is captured on the first pointermove as
now minus the event timestamp (converted from milliseconds to seconds) and
never changed afterwards; when the offset is already set and the move
qualifies (dragging or track-mouse-move), staleness now - (ts/1000 + offset)
above 1.5 times the current delay multiplies the delay by 1.05 and staleness
below 0.5 times the delay divides it by 1.05 (otherwise it is unchanged) —
in both cases clamped into the configured range [0.001, 2.0] by
set_quick_render_delay. -/
theorem claim1_adaptive_delay_and_clock_offset (k2s : String → Option String)
    (e e1 : Event) (now ts off : ℚ) (r : Except String Unit) (st : ViewerState)
    (hadapt : st.adaptive_render_delay = true) (htouch : st.touching = false)
    (hres : rescaleEvent e st = Except.ok e1) :
    ((st.message_timestamp_offset = some off →
        (stateAfter (handle_interaction_event k2s e now r st) st).message_timestamp_offset =
          some off) ∧
     (st.message_timestamp_offset = none → e.event = "mousemove" → e.timeStamp = some ts →
        (stateAfter (handle_interaction_event k2s e now r st) st).message_timestamp_offset =
          some (now - ts * (1/1000))) ∧
     (st.message_timestamp_offset = some off → e.event = "mousemove" → e.timeStamp = some ts →
        (st.dragging = true ∨ st.track_mouse_move = true) →
        (stateAfter (handle_interaction_event k2s e now r st) st).quick_render_delay_sec =
          (if now - (ts * (1/1000) + off) > 3/2 * st.quick_render_delay_sec then
            (set_quick_render_delay (st.quick_render_delay_sec * (21/20)) st).quick_render_delay_sec
          else if now - (ts * (1/1000) + off) < 1/2 * st.quick_render_delay_sec then
            (set_quick_render_delay (st.quick_render_delay_sec / (21/20)) st).quick_render_delay_sec
          else st.quick_render_delay_sec))) := by
  obtain ⟨hev, hkey, hts1, htch1, hbtn, hdy⟩ := rescaleEvent_ok_fields e st e1 hres
  refine ⟨?_, ?_, ?_⟩
  · intro hoff
    unfold handle_interaction_event
    simp only [hres, stateAfter]
    split
    · exact handleInner_offset_some k2s e1 now r _ off hoff
    · exact handleInner_offset_some k2s e1 now r _ off hoff
  · intro hoff hmv hts
    unfold handle_interaction_event
    simp only [hres, stateAfter]
    have he1 : e1.event = "mousemove" := hev.trans hmv
    have hts2 : e1.timeStamp = some ts := hts1.trans hts
    split <;>
      · unfold handleInner
        simp only [htouch, Bool.false_and, he1, reduceIte]
        unfold handleMouseMove
        simp only [hoff, hts2]
        simp
  · intro hoff hmv hts hdt
    unfold handle_interaction_event
    simp only [hres, stateAfter]
    have he1 : e1.event = "mousemove" := hev.trans hmv
    have hts2 : e1.timeStamp = some ts := hts1.trans hts
    have hcond : (!st.dragging && !st.track_mouse_move) = false := by
      rcases hdt with hd | ht
      · simp [hd]
      · simp [ht]
    split <;>
      · unfold handleInner
        simp only [htouch, Bool.false_and, he1, reduceIte]
        unfold handleMouseMove
        simp only [hoff, hts2]
        unfold handleMouseMoveTail
        simp only [hoff, hts2, hcond, hadapt, htouch, Bool.not_false, Bool.and_true,
          Bool.true_and, Bool.false_eq_true, reduceIte, Option.getD_some,
          renderCheck_fst_delay]
        repeat' split
        all_goals simp_all [set_quick_render_delay_val]

/-- C1 witness: on the concrete ceiling state the theorem applies — the
already-captured clock offset 0 is preserved, and the qualifying staleness
10 drives the delay through the clamped multiplication, landing at 2. -/
theorem claim1_adaptive_delay_witness :
    c1CexState.adaptive_render_delay = true ∧ c1CexState.touching = false ∧
    c1CexState.dragging = true ∧
    (stateAfter (handle_interaction_event k2sEmpty c1CexEvent 10 (Except.ok ()) c1CexState)
        c1CexState).message_timestamp_offset = some 0 ∧
    (stateAfter (handle_interaction_event k2sEmpty c1CexEvent 10 (Except.ok ()) c1CexState)
        c1CexState).quick_render_delay_sec = 2 := by
  have h := claim1_adaptive_delay_and_clock_offset k2sEmpty c1CexEvent c1CexEvent 10 0 0
    (Except.ok ()) c1CexState rfl rfl rfl
  refine ⟨rfl, rfl, rfl, h.1 rfl, ?_⟩
  have h3 := h.2.2 rfl rfl rfl (Or.inl rfl)
  rw [h3]
  norm_num [c1CexState, mkInitialState, set_quick_render_delay_val]

/-! ### Trace-content lemmas -/

theorem modifierActions_all_setter (e : Event) :
    (modifierActions e).all Action.isSetter = true := by
  obtain ⟨ev, ox, oy, btn, key, ts, te, bw, bh, dy, sk, ck, ak⟩ := e
  cases sk <;> cases ck <;> cases ak <;> rfl

theorem upd_snd_all_setter (k2s : String → Option String) (e : Event) (st : ViewerState) :
    ((update_interactor_event_data k2s e st).2).all Action.isSetter = true := by
  unfold update_interactor_event_data
  repeat' split
  all_goals simp [modifierActions_all_setter, Action.isSetter]

theorem upd_snd_setter_of_mem (k2s : String → Option String) (e : Event) (st : ViewerState)
    (a : Action) (ha : a ∈ (update_interactor_event_data k2s e st).2) :
    a.isSetter = true := by
  have h := upd_snd_all_setter k2s e st
  rw [List.all_eq_true] at h
  simpa using h a ha

theorem send_pending_snd_of_mem (k2s : String → Option String) (st : ViewerState)
    (a : Action) (ha : a ∈ (send_pending_mouse_move_event k2s st).2) :
    a.isSetter = true ∨ a = Action.mouseMove := by
  unfold send_pending_mouse_move_event at ha
  split at ha
  · cases ha
  · simp only [] at ha
    rcases List.mem_append.mp ha with h1 | h1
    · exact Or.inl (upd_snd_setter_of_mem k2s _ st a h1)
    · simp at h1
      exact Or.inr h1

theorem full_render_snd_of_mem (r : Except String Unit) (now : ℚ) (st : ViewerState)
    (a : Action) (ha : a ∈ (full_render r now st).2) :
    a = Action.fullRenderCall ∨ a = Action.canvasUpdated := by
  unfold full_render fullRenderBody at ha
  repeat' split at ha
  all_goals simp only [] at ha
  all_goals simp at ha
  all_goals tauto

theorem full_render_snd_mem_call (r : Except String Unit) (now : ℚ) (st : ViewerState) :
    Action.fullRenderCall ∈ (full_render r now st).2 := by
  unfold full_render fullRenderBody
  repeat' split
  all_goals simp

/-- While touching, a non-touch event is dropped at the top of the handler
try-block: no state change, no trace. -/
theorem handleInner_drop (k2s : String → Option String) (e : Event) (now : ℚ)
    (r : Except String Unit) (st : ViewerState)
    (h1 : st.touching = true) (h2 : e.touch_event = false) :
    handleInner k2s e now r st = (st, []) := by
  unfold handleInner
  simp [h1, h2]

/-! ### Claim C5 -/

/-- C5: while touching, an event not tagged as a touch event is dropped at
the top of the handler try-block (viewer.py lines 311-312): no injection is
performed, the trace is empty, and the state is unchanged except for the
diagnostic event log appended before the check (lines 296-297). -/
theorem claim5_touch_exclusivity (k2s : String → Option String) (e e1 : Event) (now : ℚ)
    (r : Except String Unit) (st : ViewerState)
    (htouch : st.touching = true) (hte : e.touch_event = false)
    (hres : rescaleEvent e st = Except.ok e1) :
    handle_interaction_event k2s e now r st =
      Except.ok ((if st.log_events then
        { st with logged_events := st.logged_events ++ [e1] } else st), []) := by
  have hte1 : e1.touch_event = false :=
    (rescaleEvent_ok_fields e st e1 hres).2.2.2.1.trans hte
  unfold handle_interaction_event
  simp only [hres]
  split <;>
    exact congrArg Except.ok (handleInner_drop _ _ _ _ _ (by simpa using htouch) hte1)

/-- C5 witness: the concrete touching state drops the concrete non-touch
mousedown — the handler returns the log-extended state and an empty trace. -/
theorem claim5_touch_exclusivity_witness :
    c5State.touching = true ∧ c5Event.touch_event = false ∧
    handle_interaction_event k2sEmpty c5Event 0 (Except.ok ()) c5State =
      Except.ok ((if c5State.log_events then
        { c5State with logged_events := c5State.logged_events ++ [c5Event] } else c5State), []) :=
  ⟨rfl, rfl, claim5_touch_exclusivity k2sEmpty c5Event c5Event 0 (Except.ok ()) c5State
    rfl rfl rfl⟩

/-! ### Claim C10 -/

/-- The mouseleave branch while dragging, written out: event data setters,
LeaveEvent, cleared pending move, the unconditional left-button release,
dragging off, then full_render. -/
theorem handleMouseLeave_dragging (k2s : String → Option String) (e : Event) (now : ℚ)
    (r : Except String Unit) (st : ViewerState) (hdrag : st.dragging = true) :
    handleMouseLeave k2s e now r st =
      ((full_render r now { (update_interactor_event_data k2s e st).1 with
          last_mouse_move_event := none, dragging := false }).1,
        (update_interactor_event_data k2s e st).2 ++ [Action.leave] ++ [Action.leftRelease] ++
          (full_render r now { (update_interactor_event_data k2s e st).1 with
            last_mouse_move_event := none, dragging := false }).2) := by
  have hd3 : (update_interactor_event_data k2s e st).1.dragging = true := by
    rw [upd_fst_dragging]; exact hdrag
  unfold handleMouseLeave
  simp only []
  simp only [hd3, eq_self_iff_true, ite_true]

/-- C10: a mouseleave while dragging always injects a left-button release —
never a right or middle release, whichever button started the drag (the
drag state does not record the button; viewer.py line 352 is
LeftButtonReleaseEvent unconditionally) — clears dragging and the pending
move, and requests a full render. -/
theorem claim10_mouseleave_releases_left (k2s : String → Option String) (e e1 : Event)
    (now : ℚ) (r : Except String Unit) (st : ViewerState)
    (htouch : st.touching = false) (hdrag : st.dragging = true)
    (hev : e.event = "mouseleave") (hres : rescaleEvent e st = Except.ok e1) :
    (stateAfter (handle_interaction_event k2s e now r st) st).dragging = false ∧
    (stateAfter (handle_interaction_event k2s e now r st) st).last_mouse_move_event = none ∧
    Action.leftRelease ∈ traceOf (handle_interaction_event k2s e now r st) ∧
    Action.rightRelease ∉ traceOf (handle_interaction_event k2s e now r st) ∧
    Action.middleRelease ∉ traceOf (handle_interaction_event k2s e now r st) ∧
    Action.fullRenderCall ∈ traceOf (handle_interaction_event k2s e now r st) := by
  have he1 : e1.event = "mouseleave" := (rescaleEvent_ok_fields e st e1 hres).1.trans hev
  unfold handle_interaction_event
  simp only [hres, stateAfter, traceOf]
  unfold handleInner
  split <;>
    · simp only [htouch, Bool.false_eq_true, false_and, he1, reduceIte]
      rw [handleMouseLeave_dragging k2s e1 now r _ (by simp [hdrag])]
      refine ⟨by simp, by simp, by simp, ?_, ?_, by simp [full_render_snd_mem_call]⟩ <;>
        · intro hmem
          rcases List.mem_append.mp hmem with hmem1 | hf
          · rcases List.mem_append.mp hmem1 with hmem2 | hlr
            · rcases List.mem_append.mp hmem2 with hu | hl
              · have hs := upd_snd_setter_of_mem _ _ _ _ hu
                simp [Action.isSetter] at hs
              · simp at hl
            · simp at hlr
          · rcases full_render_snd_of_mem _ _ _ _ hf with h2 | h2 <;> simp at h2

/-! ### Claim C6 -/

/-- Neither the pending-move flush nor the event-data setters emit a
full-render request. -/
theorem sp_upd_no_fullRenderCall (k2s : String → Option String) (e : Event)
    (st st2 : ViewerState) :
    Action.fullRenderCall ∉
      (send_pending_mouse_move_event k2s st).2 ++ (update_interactor_event_data k2s e st2).2 := by
  intro hmem
  rcases List.mem_append.mp hmem with h1 | h1
  · rcases send_pending_snd_of_mem _ _ _ h1 with h2 | h2 <;> simp [Action.isSetter] at h2
  · have hs := upd_snd_setter_of_mem _ _ _ _ h1
    simp [Action.isSetter] at hs

/-- The trace of the key branches, written out: pending-move flush, event
data setters, the key injections, then the full-render request exactly when
the key is not Shift/Control/Alt. -/
theorem handleKey_trace (isDown : Bool) (k2s : String → Option String) (e : Event)
    (now : ℚ) (r : Except String Unit) (st : ViewerState) (k : String)
    (hkey : e.key = some k) :
    (handleKey isDown k2s e now r st).2 =
      (send_pending_mouse_move_event k2s st).2 ++
      (update_interactor_event_data k2s e (send_pending_mouse_move_event k2s st).1).2 ++
      (if isDown then [Action.keyPress, Action.charEvent] else [Action.keyRelease]) ++
      (if k ≠ "Shift" ∧ k ≠ "Control" ∧ k ≠ "Alt" then
        (full_render r now (update_interactor_event_data k2s e
          (send_pending_mouse_move_event k2s st).1).1).2
      else []) := by
  unfold handleKey
  simp only [hkey]
  split
  · rfl
  · simp

theorem handleKey_render_request (isDown : Bool) (k2s : String → Option String) (e : Event)
    (now : ℚ) (r : Except String Unit) (st : ViewerState) (k : String)
    (hkey : e.key = some k) :
    ∃ t1 t2, (handleKey isDown k2s e now r st).2 =
        t1 ++ (if isDown then [Action.keyPress, Action.charEvent] else [Action.keyRelease]) ++ t2 ∧
      Action.fullRenderCall ∉ t1 ∧
      (Action.fullRenderCall ∈ t2 ↔ (k ≠ "Shift" ∧ k ≠ "Control" ∧ k ≠ "Alt")) := by
  refine ⟨(send_pending_mouse_move_event k2s st).2 ++
      (update_interactor_event_data k2s e (send_pending_mouse_move_event k2s st).1).2,
    (if k ≠ "Shift" ∧ k ≠ "Control" ∧ k ≠ "Alt" then
        (full_render r now (update_interactor_event_data k2s e
          (send_pending_mouse_move_event k2s st).1).1).2
      else []), ?_, sp_upd_no_fullRenderCall k2s e st _, ?_⟩
  · rw [handleKey_trace isDown k2s e now r st k hkey]
  · by_cases hmod : k ≠ "Shift" ∧ k ≠ "Control" ∧ k ≠ "Alt"
    · rw [if_pos hmod]
      exact iff_of_true (full_render_snd_mem_call r now _) hmod
    · rw [if_neg hmod]
      exact iff_of_false (List.not_mem_nil _) hmod

theorem handleKey_no_render_for_mod (isDown : Bool) (k2s : String → Option String)
    (e : Event) (now : ℚ) (r : Except String Unit) (st : ViewerState) (k : String)
    (hkey : e.key = some k) (hmod : k = "Shift" ∨ k = "Control" ∨ k = "Alt") :
    Action.fullRenderCall ∉ (handleKey isDown k2s e now r st).2 := by
  have hcond : ¬(k ≠ "Shift" ∧ k ≠ "Control" ∧ k ≠ "Alt") := by
    rcases hmod with h | h | h <;> simp [h]
  rw [handleKey_trace isDown k2s e now r st k hkey, if_neg hcond]
  intro hmem
  rw [List.append_nil] at hmem
  rcases List.mem_append.mp hmem with h1 | h1
  · exact sp_upd_no_fullRenderCall k2s e st _ h1
  · rcases isDown <;> simp at h1

/-- C6: a keydown or keyup whose key is exactly Shift, Control or Alt never
triggers a full render; for any other key the handler requests a full
render, and only after the key injection (KeyPressEvent and CharEvent for
keydown, KeyReleaseEvent for keyup): the trace splits as t1 (flush and
setters, no render request) then the key injections then t2, with the
full-render request in t2 exactly for non-modifier keys. -/
theorem claim6_modifier_keys_no_full_render (k2s : String → Option String) (e e1 : Event)
    (now : ℚ) (r : Except String Unit) (st : ViewerState) (k : String)
    (htouch : st.touching = false)
    (hev : e.event = "keydown" ∨ e.event = "keyup")
    (hkey : e.key = some k)
    (hres : rescaleEvent e st = Except.ok e1) :
    (∃ t1 t2, traceOf (handle_interaction_event k2s e now r st) =
        t1 ++ (if e.event = "keydown" then [Action.keyPress, Action.charEvent]
          else [Action.keyRelease]) ++ t2 ∧
      Action.fullRenderCall ∉ t1 ∧
      (Action.fullRenderCall ∈ t2 ↔ (k ≠ "Shift" ∧ k ≠ "Control" ∧ k ≠ "Alt"))) ∧
    ((k = "Shift" ∨ k = "Control" ∨ k = "Alt") →
      Action.fullRenderCall ∉ traceOf (handle_interaction_event k2s e now r st)) := by
  have hf := rescaleEvent_ok_fields e st e1 hres
  have hkey1 : e1.key = some k := hf.2.1.trans hkey
  rcases hev with hev | hev
  · have he1 : e1.event = "keydown" := hf.1.trans hev
    constructor
    · unfold handle_interaction_event
      simp only [hres, traceOf, hev, reduceIte]
      split <;>
        · unfold handleInner
          simp only [htouch, Bool.false_eq_true, false_and, he1, reduceIte]
          exact handleKey_render_request true k2s e1 now r _ k hkey1
    · intro hmod
      unfold handle_interaction_event
      simp only [hres, traceOf]
      split <;>
        · unfold handleInner
          simp only [htouch, Bool.false_eq_true, false_and, he1, reduceIte]
          exact handleKey_no_render_for_mod true k2s e1 now r _ k hkey1 hmod
  · have he1 : e1.event = "keyup" := hf.1.trans hev
    have hne : ¬ e.event = "keydown" := by rw [hev]; simp
    constructor
    · unfold handle_interaction_event
      simp only [hres, traceOf, hne, reduceIte]
      split <;>
        · unfold handleInner
          simp only [htouch, Bool.false_eq_true, false_and, he1, reduceIte]
          exact handleKey_render_request false k2s e1 now r _ k hkey1
    · intro hmod
      unfold handle_interaction_event
      simp only [hres, traceOf]
      split <;>
        · unfold handleInner
          simp only [htouch, Bool.false_eq_true, false_and, he1, reduceIte]
          exact handleKey_no_render_for_mod false k2s e1 now r _ k hkey1 hmod

/-- C6 witness: the concrete keydown for the letter a satisfies the
hypotheses, so its trace splits around the KeyPressEvent/CharEvent
injections with the full-render request after them (the letter a is not a
modifier), and a modifier key would suppress the request. -/
theorem claim6_modifier_keys_witness :
    c6State.touching = false ∧ c6Event.key = some "a" ∧
    ((∃ t1 t2, traceOf (handle_interaction_event k2sEmpty c6Event 0 (Except.ok ()) c6State) =
        t1 ++ (if c6Event.event = "keydown" then [Action.keyPress, Action.charEvent]
          else [Action.keyRelease]) ++ t2 ∧
      Action.fullRenderCall ∉ t1 ∧
      (Action.fullRenderCall ∈ t2 ↔
        ("a" ≠ "Shift" ∧ "a" ≠ "Control" ∧ "a" ≠ "Alt"))) ∧
    (("a" = "Shift" ∨ "a" = "Control" ∨ "a" = "Alt") →
      Action.fullRenderCall ∉ traceOf (handle_interaction_event k2sEmpty c6Event 0
        (Except.ok ()) c6State))) :=
  ⟨rfl, rfl, claim6_modifier_keys_no_full_render k2sEmpty c6Event c6Event 0 (Except.ok ())
    c6State "a" rfl (Or.inl rfl) rfl rfl⟩

/-- C10 witness: on the concrete dragging state the concrete mouseleave
releases the left button (and no other), clears dragging and the pending
move, and requests a full render. -/
theorem claim10_mouseleave_witness :
    c10State.dragging = true ∧ c10State.touching = false ∧
    (stateAfter (handle_interaction_event k2sEmpty c10Event 0 (Except.ok ()) c10State)
        c10State).dragging = false ∧
    (stateAfter (handle_interaction_event k2sEmpty c10Event 0 (Except.ok ()) c10State)
        c10State).last_mouse_move_event = none ∧
    Action.leftRelease ∈ traceOf (handle_interaction_event k2sEmpty c10Event 0
      (Except.ok ()) c10State) ∧
    Action.rightRelease ∉ traceOf (handle_interaction_event k2sEmpty c10Event 0
      (Except.ok ()) c10State) ∧
    Action.middleRelease ∉ traceOf (handle_interaction_event k2sEmpty c10Event 0
      (Except.ok ()) c10State) ∧
    Action.fullRenderCall ∈ traceOf (handle_interaction_event k2sEmpty c10Event 0
      (Except.ok ()) c10State) := by
  have h := claim10_mouseleave_releases_left k2sEmpty c10Event c10Event 0 (Except.ok ())
    c10State rfl rfl rfl rfl
  exact ⟨rfl, rfl, h.1, h.2.1, h.2.2.1, h.2.2.2.1, h.2.2.2.2.1, h.2.2.2.2.2⟩

/-! ### Claim C3 -/

theorem rescaleEvent_no_rect (e : Event) (st : ViewerState)
    (h : e.boundingRectWidth = none) :
    rescaleEvent e st = Except.ok e := by
  unfold rescaleEvent
  rcases hox : e.offsetX with _ | x <;> simp only [hox, h]

set_option maxHeartbeats 1000000 in
/-- One mousedown step of the C3 scenario, for any session state with no
pending move, both throttle stamps at 0 and the event at local time 0: the
only injection is the left press, and the state change is dragging on. -/
theorem mousedown_step_zero (k2s : String → Option String) (e : Event)
    (r : Except String Unit) (st : ViewerState) (ux uy : ℚ)
    (hev : e.event = "mousedown") (hbrw : e.boundingRectWidth = none)
    (hex : e.offsetX = some ux) (hey : e.offsetY = some uy) (hbtn : e.button = some 0)
    (he_mods : modifierActions e = [])
    (hpend : st.last_mouse_move_event = none)
    (htouch : st.touching = false) (hlog : st.log_events = false)
    (hfull : st.last_full_render_call = some 0) :
    handle_interaction_event k2s e 0 r st =
      Except.ok ({ st with dragging := true },
        [Action.setPos ux (st.height - uy), Action.leftPress, Action.fullRenderCall]) := by
  have hres : rescaleEvent e st = Except.ok e := rescaleEvent_no_rect e st hbrw
  have hek : ¬(e.event = "keydown" ∨ e.event = "keyup") := by rw [hev]; simp
  have hth : ¬((1:ℚ)/10 ≤ 0 - 0) := by norm_num
  unfold handle_interaction_event
  simp only [hres, hlog, Bool.false_eq_true, reduceIte]
  unfold handleInner
  simp only [htouch, Bool.false_eq_true, false_and, hev, reduceIte]
  unfold handleMouseDown send_pending_mouse_move_event update_interactor_event_data
  simp only [hpend, hek, reduceIte, hex, hey, hbtn, he_mods]
  unfold full_render fullRenderBody throttleOpen
  simp only [hfull, decide_eq_true_eq, hth, reduceIte]
  simp [htouch, hlog]

set_option maxHeartbeats 1000000 in
/-- One qualifying mousemove step of the C3 scenario (source timestamp 0,
local time 0, dragging, adaptive on, delay at the floor 0.001 of the range
[0.001, 2.0], last render at 0): the move is only buffered — empty trace —
the clock offset settles at 0 and the delay stays clamped at 0.001. -/
theorem mousemove_step_zero (k2s : String → Option String) (e : Event)
    (r : Except String Unit) (st : ViewerState)
    (hev : e.event = "mousemove") (hts : e.timeStamp = some 0)
    (hbrw : e.boundingRectWidth = none)
    (hoff : st.message_timestamp_offset = none ∨ st.message_timestamp_offset = some 0)
    (hdrag : st.dragging = true) (htouch : st.touching = false)
    (hadapt : st.adaptive_render_delay = true) (hlog : st.log_events = false)
    (hdelay : st.quick_render_delay_sec = 1/1000)
    (hrange : st.quick_render_delay_sec_range = (1/1000, 2))
    (hlrt : st.last_render_time = 0) :
    handle_interaction_event k2s e 0 r st =
      Except.ok ({ st with
        last_mouse_move_event := some e,
        message_timestamp_offset := some 0,
        quick_render_delay_sec := 1/1000 }, []) := by
  have hres : rescaleEvent e st = Except.ok e := rescaleEvent_no_rect e st hbrw
  unfold handle_interaction_event
  simp only [hres, hlog, Bool.false_eq_true, reduceIte]
  unfold handleInner
  simp only [htouch, Bool.false_eq_true, false_and, hev, reduceIte]
  unfold handleMouseMove
  rcases hoff with hoff | hoff <;>
    · simp only [hoff, hts]
      unfold handleMouseMoveTail
      simp only [hts, hoff, hdrag, htouch, hadapt, Bool.not_true, Bool.not_false,
        Bool.false_and, Bool.true_and, Bool.and_self, Bool.false_eq_true,
        eq_self_iff_true, if_true, reduceIte, Option.getD_some]
      norm_num [set_quick_render_delay, renderCheck, hdelay, hrange, hlrt, hlog]

set_option maxHeartbeats 1000000 in
/-- One mouseup step of the C3 scenario, with a pending mousemove buffered:
the pending move is flushed first — its position (mx, my) is set and
MouseMoveEvent injected — then the mouseup position is set and the left
release injected; the full render request is throttle-dropped; dragging
ends and the buffer is cleared. -/
theorem mouseup_step_zero (k2s : String → Option String) (e m : Event)
    (r : Except String Unit) (st : ViewerState) (ux uy mx my : ℚ)
    (hev : e.event = "mouseup") (hbrw : e.boundingRectWidth = none)
    (hex : e.offsetX = some ux) (hey : e.offsetY = some uy) (hbtn : e.button = some 0)
    (he_mods : modifierActions e = [])
    (hpend : st.last_mouse_move_event = some m)
    (hmev : m.event = "mousemove")
    (hmx : m.offsetX = some mx) (hmy : m.offsetY = some my)
    (hm_mods : modifierActions m = [])
    (htouch : st.touching = false) (hlog : st.log_events = false)
    (hfull : st.last_full_render_call = some 0) :
    handle_interaction_event k2s e 0 r st =
      Except.ok ({ st with last_mouse_move_event := none, dragging := false },
        [Action.setPos mx (st.height - my), Action.mouseMove,
         Action.setPos ux (st.height - uy), Action.leftRelease, Action.fullRenderCall]) := by
  have hres : rescaleEvent e st = Except.ok e := rescaleEvent_no_rect e st hbrw
  have hek : ¬(e.event = "keydown" ∨ e.event = "keyup") := by rw [hev]; simp
  have hmk : ¬(m.event = "keydown" ∨ m.event = "keyup") := by rw [hmev]; simp
  have hth : ¬((1:ℚ)/10 ≤ 0 - 0) := by norm_num
  unfold handle_interaction_event
  simp only [hres, hlog, Bool.false_eq_true, reduceIte]
  unfold handleInner
  simp only [htouch, Bool.false_eq_true, false_and, hev, reduceIte]
  unfold handleMouseUp send_pending_mouse_move_event update_interactor_event_data
  simp only [hpend, hek, hmk, reduceIte, hmx, hmy, hex, hey, hbtn, hm_mods, he_mods]
  unfold full_render fullRenderBody throttleOpen
  simp only [hfull, decide_eq_true_eq, hth, reduceIte]
  simp [htouch, hlog]

set_option maxHeartbeats 1000000 in
/-- C3: for pointerdown, pointermove(x1,y1), pointermove(x2,y2), pointerup
with both render throttles suppressing (all events at local time 0, both
rate limiters having fired at 0): the pointerdown injects exactly the left
press, each pointermove injects nothing and only overwrites the single
pending move (never queues), and the pointerup first flushes the pending
move — setting position (x2, height - y2), not (x1, y1) — then injects the
left release; dragging ends. -/
theorem claim3_move_coalescing (x1 y1 x2 y2 : ℚ) :
    injectionsOf (c3Trace (c3Down x1 y1) c3Start) = [Action.leftPress] ∧
    injectionsOf (c3Trace (c3Move x1 y1) (c3s1 x1 y1)) = [] ∧
    (c3s2 x1 y1).last_mouse_move_event = some (c3Move x1 y1) ∧
    injectionsOf (c3Trace (c3Move x2 y2) (c3s2 x1 y1)) = [] ∧
    (c3s3 x1 y1 x2 y2).last_mouse_move_event = some (c3Move x2 y2) ∧
    c3Trace (c3Up x2 y2) (c3s3 x1 y1 x2 y2) =
      [Action.setPos x2 (200 - y2), Action.mouseMove, Action.setPos x2 (200 - y2),
        Action.leftRelease, Action.fullRenderCall] ∧
    injectionsOf (c3Trace (c3Up x2 y2) (c3s3 x1 y1 x2 y2)) =
      [Action.mouseMove, Action.leftRelease] ∧
    (c3Step (c3Up x2 y2) (c3s3 x1 y1 x2 y2)).dragging = false := by
  have hd := mousedown_step_zero k2sEmpty (c3Down x1 y1) (Except.ok ()) c3Start x1 y1
    rfl rfl rfl rfl rfl rfl rfl rfl rfl rfl
  have hs1 : c3s1 x1 y1 = { c3Start with dragging := true } := by
    unfold c3s1 c3Step
    rw [hd]
    rfl
  have hm1 := mousemove_step_zero k2sEmpty (c3Move x1 y1) (Except.ok ())
    { c3Start with dragging := true } rfl rfl rfl (Or.inl rfl) rfl rfl rfl rfl rfl rfl rfl
  have hs2 : c3s2 x1 y1 =
      { { c3Start with dragging := true } with
          last_mouse_move_event := some (c3Move x1 y1),
          message_timestamp_offset := some 0,
          quick_render_delay_sec := 1/1000 } := by
    unfold c3s2 c3Step
    rw [hs1, hm1]
    rfl
  have hm2 := mousemove_step_zero k2sEmpty (c3Move x2 y2) (Except.ok ())
    { { c3Start with dragging := true } with
        last_mouse_move_event := some (c3Move x1 y1),
        message_timestamp_offset := some 0,
        quick_render_delay_sec := 1/1000 }
    rfl rfl rfl (Or.inr rfl) rfl rfl rfl rfl rfl rfl rfl
  have hs3 : c3s3 x1 y1 x2 y2 =
      { { { c3Start with dragging := true } with
            last_mouse_move_event := some (c3Move x1 y1),
            message_timestamp_offset := some 0,
            quick_render_delay_sec := 1/1000 } with
          last_mouse_move_event := some (c3Move x2 y2),
          message_timestamp_offset := some 0,
          quick_render_delay_sec := 1/1000 } := by
    unfold c3s3 c3Step
    rw [hs2, hm2]
    rfl
  have hup := mouseup_step_zero k2sEmpty (c3Up x2 y2) (c3Move x2 y2) (Except.ok ())
    { { { c3Start with dragging := true } with
          last_mouse_move_event := some (c3Move x1 y1),
          message_timestamp_offset := some 0,
          quick_render_delay_sec := 1/1000 } with
        last_mouse_move_event := some (c3Move x2 y2),
        message_timestamp_offset := some 0,
        quick_render_delay_sec := 1/1000 }
    x2 y2 x2 y2 rfl rfl rfl rfl rfl rfl rfl rfl rfl rfl rfl rfl rfl rfl
  refine ⟨?_, ?_, ?_, ?_, ?_, ?_, ?_, ?_⟩
  · unfold c3Trace
    rw [hd]
    simp [traceOf, injectionsOf, Action.isInjection]
  · unfold c3Trace
    rw [hs1, hm1]
    simp [traceOf, injectionsOf]
  · rw [hs2]
  · unfold c3Trace
    rw [hs2, hm2]
    simp [traceOf, injectionsOf]
  · rw [hs3]
  · unfold c3Trace
    rw [hs3, hup]
    rfl
  · unfold c3Trace
    rw [hs3, hup]
    simp [traceOf, injectionsOf, Action.isInjection]
  · unfold c3Step
    rw [hs3, hup]
    rfl

end IpyVtk
